import Mathlib

/-!
Verification of the checkpoint-to-mobile-package conversion script
`scripts/convert_to_coreml2.py` (ResoMaxAI).

The script is a linear pipeline: load a super-resolution checkpoint,
wrap the network so that the color channels are reordered around it,
trace the wrapped network on one example input, convert the traced
graph to a mobile model package, and save the package.

We embed the script shallowly: a 4-D tensor is a function over its
index space, the checkpoint is an association list of Python values,
the library calls the script makes (torch.load, load_state_dict,
torch.jit.trace, coremltools convert) are modelled by explicit Lean
functions and, where their outcome is outside the repository, by
oracle fields of a `Libs` record.
-/

/-- A 4-D tensor of shape (b, c, h, w) with abstract numeric entries
(element values are modelled as integers; the claims under study are
independent of the scalar type). -/
abbrev Tensor4 (b c h w : Nat) : Type := Fin b → Fin c → Fin h → Fin w → Int

/-- `x.contiguous()` of the source: it only changes memory layout,
which the value-level model does not track, so on values it is the
identity. -/
def contiguous {b c h w : Nat} (x : Tensor4 b c h w) : Tensor4 b c h w := x

/-- The channel index list `[2,1,0]` the source uses in
`x[:, [2,1,0], :, :]`. -/
def chanIdxList : List (Fin 3) := [2, 1, 0]

/-- Fancy indexing of the channel dimension by a list of indices,
as in the source's `x[:, idxs, :, :]`: output channel `c'` is input
channel `idxs[c']`. -/
def indexChannels {b c h w : Nat} (x : Tensor4 b c h w) (idxs : List (Fin c)) :
    Tensor4 b idxs.length h w :=
  fun i c' j k => x i (idxs.get c') j k

/-- `RGBWrapper.forward` from the source: permute the channels by
`[2,1,0]`, make contiguous, run the base model, permute the output
channels by `[2,1,0]`, make contiguous. -/
def RGBWrapper.forward {b h w h2 w2 : Nat}
    (model : Tensor4 b 3 h w → Tensor4 b 3 h2 w2) (x : Tensor4 b 3 h w) :
    Tensor4 b 3 h2 w2 :=
  let x1 := contiguous (indexChannels x chanIdxList)
  let out := model x1
  contiguous (indexChannels out chanIdxList)

/-- The permutation named `P` by the specification: it swaps the first
and third channels and fixes the middle one. -/
def swapPerm : Fin 3 → Fin 3 :=
  fun c => match c with
  | 0 => 2
  | 1 => 1
  | 2 => 0

/-- The spec's `P` on tensors: permute the channel dimension by
`swapPerm`, leaving batch and spatial dimensions untouched. -/
def permuteRB {b h w : Nat} (x : Tensor4 b 3 h w) : Tensor4 b 3 h w :=
  fun i c j k => x i (swapPerm c) j k

/-! ## Checkpoint model and weight loading -/

/-- A Python value stored in the checkpoint file: either a tensor
(abstracted to an identifier) or a dictionary of further values. -/
inductive PyVal where
  | tensor (id : Nat)
  | dict (entries : List (String × PyVal))

/-- A loaded checkpoint, as `torch.load` returns it: a dictionary,
i.e. an association list with string keys. -/
abbrev Ckpt := List (String × PyVal)

/-- The checkpoint-layout dispatch of the source:
`if 'params' in ckpt: ckpt = ckpt['params']`.  If the mapping has the
key `"params"`, the state dictionary used afterwards is the value
stored under it; otherwise it is the mapping itself. -/
def extractStateDict (ckpt : Ckpt) : PyVal :=
  match ckpt.lookup "params" with
  | some v => v
  | none => PyVal.dict ckpt

/-- Flatten a state dictionary into (parameter name, tensor) pairs; a
value that is not a tensor is a type error for weight loading. -/
def entryTensors : List (String × PyVal) → Except String (List (String × Nat))
  | [] => .ok []
  | (k, PyVal.tensor t) :: rest =>
    match entryTensors rest with
    | .ok acc => .ok ((k, t) :: acc)
    | .error e => .error e
  | (_, PyVal.dict _) :: _ => .error "state dict value is not a tensor"

/-- A state dictionary passed to `load_state_dict` must be a flat
dictionary of tensors. -/
def stateDictEntries : PyVal → Except String (List (String × Nat))
  | PyVal.tensor _ => .error "state dict is not a mapping"
  | PyVal.dict es => entryTensors es

/-- `xs` and `ys` hold the same keys up to order and multiplicity. -/
def sameKeys (xs ys : List String) : Bool :=
  xs.all (fun k => ys.contains k) && ys.all (fun k => xs.contains k)

/-- The model parameters after a successful `load_state_dict`:
parameter name to tensor. -/
structure LoadedParams where
  assignment : List (String × Nat)

/-- Modelled from the spec: `torch.nn.Module.load_state_dict` is
PyTorch library code absent from the repository; per its documented
behavior, with `strict=True` it raises whenever the state dictionary's
key set differs from the architecture's parameter-name set `archKeys`,
and on success every parameter is taken from the state dictionary. -/
def loadStateDict (archKeys : List String) (sd : PyVal) (strict : Bool) :
    Except String LoadedParams :=
  match stateDictEntries sd with
  | .error e => .error e
  | .ok entries =>
    if strict then
      if sameKeys archKeys (entries.map Prod.fst) then .ok ⟨entries⟩
      else .error "strict load: missing or unexpected keys"
    else .ok ⟨entries.filter (fun kv => archKeys.contains kv.1)⟩

/-! ## The script as a pipeline over an explicit world -/

/-- Contents of a file in the modelled filesystem. -/
inductive FileData where
  | ckptFile (c : Ckpt)
  | package (m : Nat)
  | blob (n : Nat)

/-- The world the script runs in: the filesystem, the command line,
the process environment, and the random draw `torch.rand(1,3,64,64)`
produces for the example input. -/
structure World where
  fs : String → Option FileData
  argv : List String
  envVars : String → Option String
  exampleNoise : Tensor4 1 3 64 64

/-- The graph captured by `torch.jit.trace`, represented by the output
the wrapped model produced on the example input during tracing. -/
structure TracedModel where
  graphOutput : Tensor4 1 3 256 256

/-- `coremltools` input declaration (`ct.ImageType`). -/
structure ImageInputSpec where
  name : String
  shape : Nat × Nat × Nat × Nat
  scale : ℚ
  bias : List ℚ
  color_layout : String

/-- `coremltools` output declaration (`ct.TensorType`). -/
inductive DType where
  | float32
  | float16
  | int32
deriving DecidableEq

structure TensorOutputSpec where
  name : String
  dtype : DType

/-- `ct.ComputeUnit`. -/
inductive ComputeUnit where
  | all
  | cpuOnly
  | cpuAndGPU
deriving DecidableEq

/-- The behavior of the libraries the script calls whose outcome is
not decided by this repository: the parameter-name set of
`SRVGGNetCompact(num_in_ch=3, num_out_ch=3, num_feat=64, num_conv=32,
upscale=4, act_type='prelu')`, the network's forward function for
loaded parameters (upscale 4 maps 64x64 to 256x256), whether tracing
the produced output succeeds, and what `ct.convert` returns. -/
structure Libs where
  archKeys : List String
  modelForward : LoadedParams → Tensor4 1 3 64 64 → Tensor4 1 3 256 256
  traceCheck : Tensor4 1 3 256 256 → Except String Unit
  ctConvert : TracedModel → List ImageInputSpec → List TensorOutputSpec →
    ComputeUnit → Except String Nat

/-- The fixed checkpoint path the script reads. -/
def ckptPath : String := "weights/realesr-general-x4v3.pth"

/-- The fixed output path the script writes. -/
def outPath : String := "RealESRGAN_x4v3_tensor.mlpackage"

/-- `torch.load(path, map_location='cpu')`: read the file at `path`
from the filesystem; a missing file or a non-checkpoint file is a
library error. -/
def torchLoad (fs : String → Option FileData) (path : String) : Except String Ckpt :=
  match fs path with
  | none => .error "file not found"
  | some (FileData.ckptFile c) => .ok c
  | some _ => .error "not a checkpoint"

/-- Stage 1 of the script: `torch.load`, the `'params'` dispatch, and
`model.load_state_dict(ckpt, strict=True)`. -/
def loadStage (w : World) (l : Libs) : Except String LoadedParams :=
  match torchLoad w.fs ckptPath with
  | .error e => .error e
  | .ok ckpt => loadStateDict l.archKeys (extractStateDict ckpt) true

/-- The output the wrapped model produces on the example input: stage
2 (wrapping) composed with the single model execution of stage 3. -/
def tracedOutput (l : Libs) (p : LoadedParams) (ex : Tensor4 1 3 64 64) :
    Tensor4 1 3 256 256 :=
  RGBWrapper.forward (l.modelForward p) ex

/-- Stage 3: `torch.jit.trace(wrapped_model, example_input)`.
Modelled from the spec: tracing "captures a fixed computation graph by
executing the model once on example input"; the `torch.jit` internals
are library code absent from the repository. -/
def traceStage (w : World) (l : Libs) : Except String TracedModel :=
  match loadStage w l with
  | .error e => .error e
  | .ok p =>
    match l.traceCheck (tracedOutput l p w.exampleNoise) with
    | .error e => .error e
    | .ok _ => .ok ⟨tracedOutput l p w.exampleNoise⟩

/-- The inputs the script passes to `ct.convert`: a single
`ct.ImageType(name="input_image", shape=(1,3,64,64), scale=1/255.0,
bias=[0,0,0], color_layout="RGB")`. -/
def scriptInputs : List ImageInputSpec :=
  [{ name := "input_image"
     shape := (1, 3, 64, 64)
     scale := 1 / 255
     bias := [0, 0, 0]
     color_layout := "RGB" }]

/-- The outputs the script passes to `ct.convert`: a single
`ct.TensorType(name="output_image", dtype=np.float32)`. -/
def scriptOutputs : List TensorOutputSpec :=
  [{ name := "output_image", dtype := DType.float32 }]

/-- Stage 4: `ct.convert(traced_model, inputs=..., outputs=...,
compute_units=ct.ComputeUnit.ALL)`. -/
def convertStage (w : World) (l : Libs) : Except String Nat :=
  match traceStage w l with
  | .error e => .error e
  | .ok tm => l.ctConvert tm scriptInputs scriptOutputs ComputeUnit.all

/-- The filesystem after the script ends: `mlmodel.save(...)` writes
the package at the fixed output path only when every previous stage
succeeded; on any error nothing is written. -/
def scriptFinalFs (w : World) (l : Libs) : String → Option FileData :=
  match convertStage w l with
  | .error _ => w.fs
  | .ok ml => fun p => if p = outPath then some (FileData.package ml) else w.fs p

/-- The script's overall outcome: `()` on success, or the first
library error, uncaught. -/
def scriptOutcome (w : World) (l : Libs) : Except String Unit :=
  match convertStage w l with
  | .error e => .error e
  | .ok _ => .ok ()

/-- The five stages of the script, in the order the source executes
them. -/
inductive Event where
  | loadWeights
  | wrapModel
  | traceModel
  | convertModel
  | savePackage
deriving DecidableEq

/-- The full pipeline order of the source. -/
def fullPipeline : List Event :=
  [Event.loadWeights, Event.wrapModel, Event.traceModel,
   Event.convertModel, Event.savePackage]

/-- The stages a run executes, in order: the run stops at the first
failing stage. -/
def scriptEvents (w : World) (l : Libs) : List Event :=
  match loadStage w l with
  | .error _ => [Event.loadWeights]
  | .ok p =>
    match l.traceCheck (tracedOutput l p w.exampleNoise) with
    | .error _ => [Event.loadWeights, Event.wrapModel, Event.traceModel]
    | .ok _ =>
      match l.ctConvert ⟨tracedOutput l p w.exampleNoise⟩ scriptInputs
          scriptOutputs ComputeUnit.all with
      | .error _ => [Event.loadWeights, Event.wrapModel, Event.traceModel,
          Event.convertModel]
      | .ok _ => fullPipeline

/-- The inputs fed to the wrapped model during tracing: one execution
on the example input whenever tracing is reached, none when weight
loading already failed. -/
def scriptExecLog (w : World) (l : Libs) : List (Tensor4 1 3 64 64) :=
  match loadStage w l with
  | .error _ => []
  | .ok _ => [w.exampleNoise]

/-- The argument lists of the `ct.convert` calls a run performs. -/
def scriptConvertCalls (w : World) (l : Libs) :
    List (List ImageInputSpec × List TensorOutputSpec × ComputeUnit) :=
  match traceStage w l with
  | .error _ => []
  | .ok _ => [(scriptInputs, scriptOutputs, ComputeUnit.all)]

/-! ## Concrete instances used to witness the theorems -/

/-- A concrete example-input draw. -/
def witNoise : Tensor4 1 3 64 64 := fun _ _ _ _ => 0

/-- A concrete checkpoint in the nested layout: the state dictionary
sits under the key `"params"`. -/
def witCkpt : Ckpt := [("params", PyVal.dict [("w", PyVal.tensor 7)])]

/-- A concrete world whose filesystem holds `witCkpt` at the
checkpoint path and nothing else. -/
def witWorld : World where
  fs := fun p => if p = ckptPath then some (FileData.ckptFile witCkpt) else none
  argv := []
  envVars := fun _ => none
  exampleNoise := witNoise

/-- Concrete library behavior on which every stage succeeds. -/
def witLibs : Libs where
  archKeys := ["w"]
  modelForward := fun _ _ => fun _ _ _ _ => 0
  traceCheck := fun _ => Except.ok ()
  ctConvert := fun _ _ _ _ => Except.ok 0

/-- Concrete library behavior on which tracing fails. -/
def witLibsTraceFail : Libs :=
  { witLibs with traceCheck := fun _ => Except.error "unsupported op" }

/-! ## Theorems -/

/-- Claim C1: for every 4-D input with 3 channels, `RGBWrapper.forward`
equals `P (model (P x))` where `P` permutes the channel dimension by
the index list [2,1,0]; the permutation is applied once to the input
before the base model and once to the base model's output. -/
theorem rgbwrapper_forward_is_perm_conjugation {b h w h2 w2 : Nat}
    (model : Tensor4 b 3 h w → Tensor4 b 3 h2 w2) (x : Tensor4 b 3 h w) :
    RGBWrapper.forward model x = permuteRB (model (permuteRB x)) := by
  have hperm : ∀ {b' h' w' : Nat} (y : Tensor4 b' 3 h' w'),
      contiguous (indexChannels y chanIdxList) = permuteRB y := by
    intro b' h' w' y
    funext i c j k
    fin_cases c <;> rfl
  show contiguous (indexChannels (model (contiguous (indexChannels x chanIdxList))) chanIdxList)
      = permuteRB (model (permuteRB x))
  rw [hperm, hperm]

/-- Claim C8: the channel permutation [2,1,0] is an involution, and if
the wrapped base model were the identity then `RGBWrapper.forward`
would be the identity too. -/
theorem chan_perm_involution {b h w : Nat} (x : Tensor4 b 3 h w) :
    permuteRB (permuteRB x) = x ∧
    RGBWrapper.forward (fun y : Tensor4 b 3 h w => y) x = x := by
  constructor
  · funext i c j k
    fin_cases c <;> rfl
  · funext i c j k
    fin_cases c <;> rfl

/-- Claim C9: the wrapper's channel permutation only reindexes
channels: the permuted tensor's element at (i, c, j, k) is the input's
element at (i, [2,1,0][c], j, k), for every index; batch and spatial
dimensions are untouched (the output type has the same shape as the
input type) and no element value is altered. -/
theorem chan_perm_frame {b h w : Nat} (x : Tensor4 b 3 h w)
    (i : Fin b) (c : Fin 3) (j : Fin h) (k : Fin w) :
    contiguous (indexChannels x chanIdxList) i c j k = x i (chanIdxList.get c) j k ∧
    permuteRB x i c j k = x i (chanIdxList.get c) j k := by
  constructor
  · rfl
  · fin_cases c <;> rfl

/-- Claim C2: checkpoint loading accepts exactly the two layouts the
source dispatches on: if the loaded mapping has the key `"params"`,
the state dictionary is the value under it (every other top-level key
is ignored, since the result depends only on that lookup); otherwise
the mapping itself is the state dictionary. -/
theorem extract_state_dict_layouts (ckpt : Ckpt) :
    (∀ v, ckpt.lookup "params" = some v → extractStateDict ckpt = v) ∧
    (ckpt.lookup "params" = none → extractStateDict ckpt = PyVal.dict ckpt) := by
  constructor
  · intro v h
    simp [extractStateDict, h]
  · intro h
    simp [extractStateDict, h]

theorem extract_state_dict_layouts_witness :
    extractStateDict witCkpt = PyVal.dict [("w", PyVal.tensor 7)] :=
  (extract_state_dict_layouts witCkpt).1 (PyVal.dict [("w", PyVal.tensor 7)]) rfl

/-- Decomposition of the script's weight-loading stage. -/
theorem loadStage_ok_elim (w : World) (l : Libs) (p : LoadedParams)
    (h : loadStage w l = Except.ok p) :
    ∃ ckpt, torchLoad w.fs ckptPath = Except.ok ckpt ∧
      loadStateDict l.archKeys (extractStateDict ckpt) true = Except.ok p := by
  unfold loadStage at h
  cases htl : torchLoad w.fs ckptPath with
  | error e => rw [htl] at h; exact absurd h (by simp)
  | ok ckpt => rw [htl] at h; exact ⟨ckpt, rfl, h⟩

/-- The weight-loading stage reads the world only through the
filesystem entry at the checkpoint path. -/
theorem loadStage_congr (w1 w2 : World) (l : Libs)
    (h : w1.fs ckptPath = w2.fs ckptPath) :
    loadStage w1 l = loadStage w2 l := by
  simp [loadStage, torchLoad, h]

/-- Claim C10: weight loading is strict.  With `strict = true` (as the
script invokes it), `load_state_dict` succeeds only when the state
dictionary is a flat tensor dictionary whose key set equals the
architecture's parameter-name set, in which case every parameter is
taken from the checkpoint entries; any key mismatch raises; and the
script's loading stage is exactly this strict invocation. -/
theorem strict_load_exact_keys :
    (∀ (archKeys : List String) (sd : PyVal) (p : LoadedParams),
      loadStateDict archKeys sd true = Except.ok p →
        stateDictEntries sd = Except.ok p.assignment ∧
        sameKeys archKeys (p.assignment.map Prod.fst) = true) ∧
    (∀ (archKeys : List String) (sd : PyVal) (entries : List (String × Nat)),
      stateDictEntries sd = Except.ok entries →
      sameKeys archKeys (entries.map Prod.fst) = false →
      ∃ e, loadStateDict archKeys sd true = Except.error e) ∧
    (∀ (w : World) (l : Libs) (ckpt : Ckpt),
      torchLoad w.fs ckptPath = Except.ok ckpt →
      loadStage w l = loadStateDict l.archKeys (extractStateDict ckpt) true) := by
  refine ⟨?_, ?_, ?_⟩
  · intro archKeys sd p h
    unfold loadStateDict at h
    cases hse : stateDictEntries sd with
    | error e => rw [hse] at h; exact absurd h (by simp)
    | ok entries =>
      rw [hse] at h
      simp only [if_true] at h
      by_cases hsk : sameKeys archKeys (entries.map Prod.fst)
      · rw [if_pos hsk] at h
        cases h
        exact ⟨rfl, hsk⟩
      · rw [if_neg hsk] at h
        exact absurd h (by simp)
  · intro archKeys sd entries hse hsk
    refine ⟨"strict load: missing or unexpected keys", ?_⟩
    unfold loadStateDict
    rw [hse]
    simp [hsk]
  · intro w l ckpt h
    unfold loadStage
    rw [h]

theorem strict_load_exact_keys_witness :
    stateDictEntries (PyVal.dict [("w", PyVal.tensor 7)]) =
      Except.ok [("w", 7)] ∧
    sameKeys ["w"] ([("w", (7 : Nat))].map Prod.fst) = true :=
  strict_load_exact_keys.1 ["w"] (PyVal.dict [("w", PyVal.tensor 7)])
    ⟨[("w", 7)]⟩ rfl

/-- Every run of the script has one of four shapes: weight loading
fails; loading succeeds and tracing fails; tracing succeeds and
conversion fails; or every stage succeeds and the package is saved. -/
theorem run_shape (w : World) (l : Libs) :
    (∃ e, loadStage w l = Except.error e ∧
      traceStage w l = Except.error e ∧
      convertStage w l = Except.error e ∧
      scriptOutcome w l = Except.error e ∧
      scriptEvents w l = [Event.loadWeights] ∧
      scriptFinalFs w l = w.fs ∧
      scriptExecLog w l = [] ∧
      scriptConvertCalls w l = []) ∨
    (∃ p e, loadStage w l = Except.ok p ∧
      l.traceCheck (tracedOutput l p w.exampleNoise) = Except.error e ∧
      traceStage w l = Except.error e ∧
      convertStage w l = Except.error e ∧
      scriptOutcome w l = Except.error e ∧
      scriptEvents w l = [Event.loadWeights, Event.wrapModel, Event.traceModel] ∧
      scriptFinalFs w l = w.fs ∧
      scriptExecLog w l = [w.exampleNoise] ∧
      scriptConvertCalls w l = []) ∨
    (∃ p e, loadStage w l = Except.ok p ∧
      l.traceCheck (tracedOutput l p w.exampleNoise) = Except.ok () ∧
      traceStage w l = Except.ok ⟨tracedOutput l p w.exampleNoise⟩ ∧
      l.ctConvert ⟨tracedOutput l p w.exampleNoise⟩ scriptInputs scriptOutputs
        ComputeUnit.all = Except.error e ∧
      convertStage w l = Except.error e ∧
      scriptOutcome w l = Except.error e ∧
      scriptEvents w l = [Event.loadWeights, Event.wrapModel, Event.traceModel,
        Event.convertModel] ∧
      scriptFinalFs w l = w.fs ∧
      scriptExecLog w l = [w.exampleNoise] ∧
      scriptConvertCalls w l = [(scriptInputs, scriptOutputs, ComputeUnit.all)]) ∨
    (∃ p ml, loadStage w l = Except.ok p ∧
      l.traceCheck (tracedOutput l p w.exampleNoise) = Except.ok () ∧
      traceStage w l = Except.ok ⟨tracedOutput l p w.exampleNoise⟩ ∧
      l.ctConvert ⟨tracedOutput l p w.exampleNoise⟩ scriptInputs scriptOutputs
        ComputeUnit.all = Except.ok ml ∧
      convertStage w l = Except.ok ml ∧
      scriptOutcome w l = Except.ok () ∧
      scriptEvents w l = fullPipeline ∧
      scriptFinalFs w l =
        (fun q => if q = outPath then some (FileData.package ml) else w.fs q) ∧
      scriptExecLog w l = [w.exampleNoise] ∧
      scriptConvertCalls w l = [(scriptInputs, scriptOutputs, ComputeUnit.all)]) := by
  cases hload : loadStage w l with
  | error e =>
    refine Or.inl ⟨e, rfl, ?_, ?_, ?_, ?_, ?_, ?_, ?_⟩ <;>
      simp [traceStage, convertStage, scriptOutcome, scriptEvents,
        scriptFinalFs, scriptExecLog, scriptConvertCalls, hload]
  | ok p =>
    cases htc : l.traceCheck (tracedOutput l p w.exampleNoise) with
    | error e =>
      refine Or.inr (Or.inl ⟨p, e, rfl, htc, ?_, ?_, ?_, ?_, ?_, ?_, ?_⟩) <;>
        simp [traceStage, convertStage, scriptOutcome, scriptEvents,
          scriptFinalFs, scriptExecLog, scriptConvertCalls, hload, htc]
    | ok u =>
      cases u
      cases hcc : l.ctConvert ⟨tracedOutput l p w.exampleNoise⟩ scriptInputs
          scriptOutputs ComputeUnit.all with
      | error e =>
        refine Or.inr (Or.inr (Or.inl ⟨p, e, rfl, htc, ?_, hcc, ?_, ?_, ?_, ?_, ?_, ?_⟩)) <;>
          simp [traceStage, convertStage, scriptOutcome, scriptEvents,
            scriptFinalFs, scriptExecLog, scriptConvertCalls, hload, htc, hcc]
      | ok ml =>
        refine Or.inr (Or.inr (Or.inr ⟨p, ml, rfl, htc, ?_, hcc, ?_, ?_, ?_, ?_, ?_, ?_⟩)) <;>
          simp [traceStage, convertStage, scriptOutcome, scriptEvents,
            scriptFinalFs, scriptExecLog, scriptConvertCalls, hload, htc, hcc,
            fullPipeline]

/-- Claim C3: the script is a linear pipeline: the stages run in the
fixed order load weights, wrap, trace, convert, save (every run
executes a prefix of that order, stopping at the first failure), and
on success all five ran and each stage consumed the previous stage's
result: the converted package saved at the output path is the
conversion of the traced graph of the wrapped loaded model. -/
theorem pipeline_fixed_order (w : World) (l : Libs) :
    (∃ rest, fullPipeline = scriptEvents w l ++ rest) ∧
    (scriptOutcome w l = Except.ok () →
      scriptEvents w l = fullPipeline ∧
      ∃ (ckpt : Ckpt) (p : LoadedParams) (ml : Nat),
        torchLoad w.fs ckptPath = Except.ok ckpt ∧
        loadStateDict l.archKeys (extractStateDict ckpt) true = Except.ok p ∧
        traceStage w l = Except.ok ⟨tracedOutput l p w.exampleNoise⟩ ∧
        l.ctConvert ⟨tracedOutput l p w.exampleNoise⟩ scriptInputs scriptOutputs
          ComputeUnit.all = Except.ok ml ∧
        convertStage w l = Except.ok ml ∧
        scriptFinalFs w l outPath = some (FileData.package ml)) := by
  rcases run_shape w l with
    ⟨e, h1, h2, h3, h4, h5, h6, h7, h8⟩ |
    ⟨p, e, h1, h2, h3, h4, h5, h6, h7, h8, h9⟩ |
    ⟨p, e, h1, h2, h3, h4, h5, h6, h7, h8, h9, h10⟩ |
    ⟨p, ml, h1, h2, h3, h4, h5, h6, h7, h8, h9, h10⟩
  · refine ⟨⟨[Event.wrapModel, Event.traceModel, Event.convertModel,
      Event.savePackage], by rw [h5]; rfl⟩, ?_⟩
    intro hok
    simp [h4] at hok
  · refine ⟨⟨[Event.convertModel, Event.savePackage], by rw [h6]; rfl⟩, ?_⟩
    intro hok
    simp [h5] at hok
  · refine ⟨⟨[Event.savePackage], by rw [h7]; rfl⟩, ?_⟩
    intro hok
    simp [h6] at hok
  · refine ⟨⟨[], by rw [h7, List.append_nil]⟩, ?_⟩
    intro _
    obtain ⟨ckpt, htl, hls⟩ := loadStage_ok_elim w l p h1
    refine ⟨h7, ckpt, p, ml, htl, hls, h3, h4, h5, ?_⟩
    rw [h8]
    simp

theorem pipeline_fixed_order_witness :
    scriptOutcome witWorld witLibs = Except.ok () ∧
    scriptEvents witWorld witLibs = fullPipeline :=
  ⟨rfl, ((pipeline_fixed_order witWorld witLibs).2 rfl).1⟩

/-- Claim C4: the script has no recovery of its own: each library
error (checkpoint load, state-dict load, tracing, conversion)
propagates uncaught as the script's outcome, and whenever the outcome
is an error the save stage never ran and the filesystem is unchanged. -/
theorem errors_propagate_no_write (w : World) (l : Libs) :
    (∀ e, scriptOutcome w l = Except.error e →
      scriptFinalFs w l = w.fs ∧ Event.savePackage ∉ scriptEvents w l) ∧
    (∀ e, torchLoad w.fs ckptPath = Except.error e →
      scriptOutcome w l = Except.error e) ∧
    (∀ ckpt e, torchLoad w.fs ckptPath = Except.ok ckpt →
      loadStateDict l.archKeys (extractStateDict ckpt) true = Except.error e →
      scriptOutcome w l = Except.error e) ∧
    (∀ p e, loadStage w l = Except.ok p →
      l.traceCheck (tracedOutput l p w.exampleNoise) = Except.error e →
      scriptOutcome w l = Except.error e) ∧
    (∀ tm e, traceStage w l = Except.ok tm →
      l.ctConvert tm scriptInputs scriptOutputs ComputeUnit.all =
        Except.error e →
      scriptOutcome w l = Except.error e) := by
  refine ⟨?_, ?_, ?_, ?_, ?_⟩
  · intro e he
    rcases run_shape w l with
      ⟨e', h1, h2, h3, h4, h5, h6, h7, h8⟩ |
      ⟨p, e', h1, h2, h3, h4, h5, h6, h7, h8, h9⟩ |
      ⟨p, e', h1, h2, h3, h4, h5, h6, h7, h8, h9, h10⟩ |
      ⟨p, ml, h1, h2, h3, h4, h5, h6, h7, h8, h9, h10⟩
    · exact ⟨h6, by rw [h5]; decide⟩
    · exact ⟨h7, by rw [h6]; decide⟩
    · exact ⟨h8, by rw [h7]; decide⟩
    · simp [h6] at he
  · intro e h
    have hl : loadStage w l = Except.error e := by simp [loadStage, h]
    simp [scriptOutcome, convertStage, traceStage, hl]
  · intro ckpt e h1 h2
    have hl : loadStage w l = Except.error e := by simp [loadStage, h1, h2]
    simp [scriptOutcome, convertStage, traceStage, hl]
  · intro p e h1 h2
    simp [scriptOutcome, convertStage, traceStage, h1, h2]
  · intro tm e h1 h2
    simp [scriptOutcome, convertStage, h1, h2]

theorem errors_propagate_no_write_witness :
    scriptFinalFs witWorld witLibsTraceFail = witWorld.fs ∧
    Event.savePackage ∉ scriptEvents witWorld witLibsTraceFail :=
  (errors_propagate_no_write witWorld witLibsTraceFail).1 "unsupported op" rfl

/-- Claim C5: the conversion call declares exactly one input and one
output: the input an image type named "input_image" of shape
(1, 3, 64, 64) with scale 1/255, zero bias [0,0,0] and RGB color
layout, the output a tensor type named "output_image" of dtype
float32; every `ct.convert` call the script performs passes exactly
these declarations. -/
theorem convert_io_declarations :
    scriptInputs.length = 1 ∧
    scriptOutputs.length = 1 ∧
    scriptInputs = [{ name := "input_image"
                      shape := (1, 3, 64, 64)
                      scale := 1 / 255
                      bias := [0, 0, 0]
                      color_layout := "RGB" }] ∧
    scriptOutputs = [{ name := "output_image", dtype := DType.float32 }] ∧
    (∀ (w : World) (l : Libs) c, c ∈ scriptConvertCalls w l →
      c = (scriptInputs, scriptOutputs, ComputeUnit.all)) := by
  refine ⟨rfl, rfl, rfl, rfl, ?_⟩
  intro w l c hc
  unfold scriptConvertCalls at hc
  cases hts : traceStage w l with
  | error e =>
    rw [hts] at hc
    simp at hc
  | ok tm =>
    rw [hts] at hc
    simpa using hc

theorem convert_io_declarations_witness :
    (scriptInputs, scriptOutputs, ComputeUnit.all) =
      (scriptInputs, scriptOutputs, ComputeUnit.all) :=
  convert_io_declarations.2.2.2.2 witWorld witLibs
    (scriptInputs, scriptOutputs, ComputeUnit.all) (List.Mem.head _)

/-- Claim C6: tracing executes the wrapped model exactly once, on the
single example input (whose type records the shape (1, 3, 64, 64)):
the log of inputs fed to the model during tracing holds at most one
entry, every logged input is the example input, whenever weight
loading succeeded the log is exactly one execution on the example
input, and the captured graph is the wrapped model's output on that
single input. -/
theorem tracing_single_execution (w : World) (l : Libs) :
    (scriptExecLog w l).length ≤ 1 ∧
    (∀ t, t ∈ scriptExecLog w l → t = w.exampleNoise) ∧
    (∀ p, loadStage w l = Except.ok p →
      scriptExecLog w l = [w.exampleNoise]) ∧
    (∀ p tm, loadStage w l = Except.ok p → traceStage w l = Except.ok tm →
      tm.graphOutput = RGBWrapper.forward (l.modelForward p) w.exampleNoise) := by
  refine ⟨?_, ?_, ?_, ?_⟩
  · cases hload : loadStage w l <;> simp [scriptExecLog, hload]
  · intro t ht
    cases hload : loadStage w l with
    | error e => rw [scriptExecLog, hload] at ht; simp at ht
    | ok p => rw [scriptExecLog, hload] at ht; simpa using ht
  · intro p h
    simp [scriptExecLog, h]
  · intro p tm h1 h2
    rcases run_shape w l with
      ⟨e, g1, g2, g3, g4, g5, g6, g7, g8⟩ |
      ⟨q, e, g1, g2, g3, g4, g5, g6, g7, g8, g9⟩ |
      ⟨q, e, g1, g2, g3, g4, g5, g6, g7, g8, g9, g10⟩ |
      ⟨q, ml, g1, g2, g3, g4, g5, g6, g7, g8, g9, g10⟩
    · rw [g1] at h1
      exact absurd h1 (by simp)
    · rw [g3] at h2
      exact absurd h2 (by simp)
    · have hq := g1.symm.trans h1
      injection hq with hq'
      subst hq'
      rw [g3] at h2
      injection h2 with h3
      rw [← h3]
      rfl
    · have hq := g1.symm.trans h1
      injection hq with hq'
      subst hq'
      rw [g3] at h2
      injection h2 with h3
      rw [← h3]
      rfl

theorem tracing_single_execution_witness :
    scriptExecLog witWorld witLibs = [witWorld.exampleNoise] :=
  (tracing_single_execution witWorld witLibs).2.2.1 ⟨[("w", 7)]⟩ rfl

/-- Claim C7: the script's behavior does not depend on the command
line or the environment: runs differing only in argv or environment
variables are identical in outcome, executed stages, final
filesystem, model executions and conversion calls; the filesystem is
written only at the fixed output path; and the run is determined by
the filesystem entry at the fixed checkpoint path (together with the
random example draw), i.e. no other file is read. -/
theorem no_cli_env_dependence :
    (∀ (fs : String → Option FileData) (n : Tensor4 1 3 64 64)
        (a1 a2 : List String) (ev1 ev2 : String → Option String) (l : Libs),
      scriptOutcome ⟨fs, a1, ev1, n⟩ l = scriptOutcome ⟨fs, a2, ev2, n⟩ l ∧
      scriptEvents ⟨fs, a1, ev1, n⟩ l = scriptEvents ⟨fs, a2, ev2, n⟩ l ∧
      scriptFinalFs ⟨fs, a1, ev1, n⟩ l = scriptFinalFs ⟨fs, a2, ev2, n⟩ l ∧
      scriptExecLog ⟨fs, a1, ev1, n⟩ l = scriptExecLog ⟨fs, a2, ev2, n⟩ l ∧
      scriptConvertCalls ⟨fs, a1, ev1, n⟩ l =
        scriptConvertCalls ⟨fs, a2, ev2, n⟩ l) ∧
    (∀ (w : World) (l : Libs) (q : String), q ≠ outPath →
      scriptFinalFs w l q = w.fs q) ∧
    (∀ (w1 w2 : World) (l : Libs),
      w1.fs ckptPath = w2.fs ckptPath →
      w1.exampleNoise = w2.exampleNoise →
      scriptOutcome w1 l = scriptOutcome w2 l ∧
      scriptEvents w1 l = scriptEvents w2 l) := by
  refine ⟨?_, ?_, ?_⟩
  · intro fs n a1 a2 ev1 ev2 l
    exact ⟨rfl, rfl, rfl, rfl, rfl⟩
  · intro w l q hq
    rcases run_shape w l with
      ⟨e, h1, h2, h3, h4, h5, h6, h7, h8⟩ |
      ⟨p, e, h1, h2, h3, h4, h5, h6, h7, h8, h9⟩ |
      ⟨p, e, h1, h2, h3, h4, h5, h6, h7, h8, h9, h10⟩ |
      ⟨p, ml, h1, h2, h3, h4, h5, h6, h7, h8, h9, h10⟩
    · rw [h6]
    · rw [h7]
    · rw [h8]
    · rw [h8]
      simp [hq]
  · intro w1 w2 l hfs hn
    have hl := loadStage_congr w1 w2 l hfs
    cases hld : loadStage w2 l with
    | error e =>
      have hld1 : loadStage w1 l = Except.error e := hl.trans hld
      constructor <;>
        simp [scriptOutcome, convertStage, traceStage, scriptEvents, hld1, hld]
    | ok p =>
      have hld1 : loadStage w1 l = Except.ok p := hl.trans hld
      cases htc : l.traceCheck (tracedOutput l p w2.exampleNoise) with
      | error e =>
        have htc1 : l.traceCheck (tracedOutput l p w1.exampleNoise) =
            Except.error e := by rw [hn]; exact htc
        constructor <;>
          simp [scriptOutcome, convertStage, traceStage, scriptEvents,
            hld1, hld, htc1, htc]
      | ok u =>
        cases u
        have htc1 : l.traceCheck (tracedOutput l p w1.exampleNoise) =
            Except.ok () := by rw [hn]; exact htc
        cases hcc : l.ctConvert ⟨tracedOutput l p w2.exampleNoise⟩ scriptInputs
            scriptOutputs ComputeUnit.all with
        | error e =>
          have hcc1 : l.ctConvert ⟨tracedOutput l p w1.exampleNoise⟩
              scriptInputs scriptOutputs ComputeUnit.all =
              Except.error e := by rw [hn]; exact hcc
          constructor <;>
            simp [scriptOutcome, convertStage, traceStage, scriptEvents,
              hld1, hld, htc1, htc, hcc1, hcc]
        | ok ml =>
          have hcc1 : l.ctConvert ⟨tracedOutput l p w1.exampleNoise⟩
              scriptInputs scriptOutputs ComputeUnit.all =
              Except.ok ml := by rw [hn]; exact hcc
          constructor <;>
            simp [scriptOutcome, convertStage, traceStage, scriptEvents,
              hld1, hld, htc1, htc, hcc1, hcc]

theorem no_cli_env_dependence_witness :
    scriptFinalFs witWorld witLibs ckptPath = witWorld.fs ckptPath :=
  no_cli_env_dependence.2.1 witWorld witLibs ckptPath (by decide)

theorem rgbwrapper_forward_is_perm_conjugation_witness :
    RGBWrapper.forward (fun y : Tensor4 1 3 64 64 => y) witNoise =
      permuteRB ((fun y : Tensor4 1 3 64 64 => y) (permuteRB witNoise)) :=
  rgbwrapper_forward_is_perm_conjugation (fun y => y) witNoise

theorem chan_perm_involution_witness :
    permuteRB (permuteRB witNoise) = witNoise ∧
    RGBWrapper.forward (fun y : Tensor4 1 3 64 64 => y) witNoise = witNoise :=
  chan_perm_involution witNoise

theorem chan_perm_frame_witness :
    contiguous (indexChannels witNoise chanIdxList) 0 (0 : Fin 3) 0 0 =
      witNoise 0 (chanIdxList.get (0 : Fin 3)) 0 0 ∧
    permuteRB witNoise 0 (0 : Fin 3) 0 0 =
      witNoise 0 (chanIdxList.get (0 : Fin 3)) 0 0 :=
  chan_perm_frame witNoise 0 (0 : Fin 3) 0 0
